import Mathlib

/- Verification development for the caddy-geo-ip middleware.

   The Go sources (src/main.go, src/state.go, src/caddyfile.go) are shallowly
   embedded below: the stateful handler and its shared state become explicit
   state-passing functions, Go errors become Option String / Except String
   values, the filesystem and the remote fetcher become explicit oracles, and
   the relevant stdlib collaborators (net.SplitHostPort, net.ParseIP,
   strconv.Atoi, filepath.Split) are translated from their Go sources. -/

namespace CaddyGeoIp

/-- Go errors are modelled by their message strings. -/
abbrev GoError := String

/-- Index of the first occurrence of a character, as in Go bytealg.IndexByteString. -/
def idxOfChar (c : Char) : List Char → Option Nat
  | [] => none
  | a :: rest => if a = c then some 0 else (idxOfChar c rest).map (· + 1)

/-- Index of the last occurrence of a character, as in Go bytealg.LastIndexByteString. -/
def lastIdxOf (c : Char) : List Char → Option Nat
  | [] => none
  | a :: rest =>
    match lastIdxOf c rest with
    | some i => some (i + 1)
    | none => if a = c then some 0 else none

/-- Whether the second list is a leading segment of the first. -/
def hasPrefixChars : List Char → List Char → Bool
  | _, [] => true
  | [], _ :: _ => false
  | a :: as, b :: bs => a = b && hasPrefixChars as bs

/-- Remove the first occurrence of a pattern, as in Go strings.Replace(s, pat, "", 1). -/
def replaceFirst : List Char → List Char → List Char
  | [], _ => []
  | c :: rest, pat =>
    if hasPrefixChars (c :: rest) pat then (c :: rest).drop pat.length
    else c :: replaceFirst rest pat

/-- Go filepath.Split: everything up to and including the last separator, then the file name. -/
def filepathSplit (path : List Char) : List Char × List Char :=
  match lastIdxOf ('/') path with
  | none => ([], path)
  | some i => (path.take (i + 1), path.drop (i + 1))

/-- Go net.SplitHostPort, translated from net/ipsock.go. Returns (host, port, err);
on every error path the returned host and port are empty, exactly as in Go. -/
def splitHostPort (hostport : List Char) : List Char × List Char × Option GoError :=
  match lastIdxOf (':') hostport with
  | none => ([], [], some ("missing port in address"))
  | some i =>
    if hostport.head? = some ('[') then
      match idxOfChar (']') hostport with
      | none => ([], [], some ("missing bracket in address"))
      | some endi =>
        if endi + 1 = hostport.length then ([], [], some ("missing port in address"))
        else if endi + 1 = i then
          let host := (hostport.take endi).drop 1
          if (idxOfChar ('[') (hostport.drop 1)).isSome then
            ([], [], some ("unexpected open bracket in address"))
          else if (idxOfChar (']') (hostport.drop (endi + 1))).isSome then
            ([], [], some ("unexpected close bracket in address"))
          else (host, hostport.drop (i + 1), none)
        else if hostport[endi + 1]? = some (':') then
          ([], [], some ("too many colons in address"))
        else ([], [], some ("missing port in address"))
    else
      let host := hostport.take i
      if (idxOfChar (':') host).isSome then ([], [], some ("too many colons in address"))
      else if (idxOfChar ('[') hostport).isSome then
        ([], [], some ("unexpected open bracket in address"))
      else if (idxOfChar (']') hostport).isSome then
        ([], [], some ("unexpected close bracket in address"))
      else (host, hostport.drop (i + 1), none)

/-- IP addresses in Go net representation: a list of bytes (16 for both families,
IPv4 carried in the v4-in-v6 prefix form produced by net.IPv4). -/
abbrev IP := List Nat

/-- The 12-byte prefix net.IPv4 puts before the four IPv4 bytes. -/
def v4InV6Prefix : List Nat := [0, 0, 0, 0, 0, 0, 0, 0, 0, 0, 255, 255]

/-- Go net.dtoi: decimal prefix of a string, returning (value, chars consumed, ok),
saturating at 0xFFFFFF. -/
def dtoiAux : List Char → Nat → Nat → Nat × Nat × Bool
  | c :: rest, n, i =>
    if ('0') ≤ c ∧ c ≤ ('9') then
      let n2 := n * 10 + (c.toNat - ('0').toNat)
      if 0xFFFFFF ≤ n2 then (0xFFFFFF, i + 1, false)
      else dtoiAux rest n2 (i + 1)
    else if i = 0 then (0, 0, false) else (n, i, true)
  | [], n, i => if i = 0 then (0, 0, false) else (n, i, true)

def dtoi (s : List Char) : Nat × Nat × Bool := dtoiAux s 0 0

/-- Hex digit value, if any, as in Go net.xtoi. -/
def hexVal (c : Char) : Option Nat :=
  if ('0') ≤ c ∧ c ≤ ('9') then some (c.toNat - ('0').toNat)
  else if ('a') ≤ c ∧ c ≤ ('f') then some (c.toNat - ('a').toNat + 10)
  else if ('A') ≤ c ∧ c ≤ ('F') then some (c.toNat - ('A').toNat + 10)
  else none

/-- Go net.xtoi: hexadecimal prefix of a string, returning (value, chars consumed, ok). -/
def xtoiAux : List Char → Nat → Nat → Nat × Nat × Bool
  | c :: rest, n, i =>
    match hexVal c with
    | some v =>
      let n2 := n * 16 + v
      if 0xFFFFFF ≤ n2 then (0, i, false)
      else xtoiAux rest n2 (i + 1)
    | none => if i = 0 then (0, 0, false) else (n, i, true)
  | [], n, i => if i = 0 then (0, 0, false) else (n, i, true)

def xtoi (s : List Char) : Nat × Nat × Bool := xtoiAux s 0 0

/-- Go net.parseIPv4 field loop: four dot-separated decimal fields, each at most
255, rejecting non-zero fields with leading zeroes, consuming the whole string. -/
def parseIPv4Fields (s : List Char) (remaining : Nat) (first : Bool) : Option (List Nat) :=
  match remaining with
  | 0 => if s.isEmpty then some [] else none
  | r + 1 =>
    if s.isEmpty then none
    else
      let s1 : Option (List Char) :=
        if first then some s
        else
          match s with
          | ('.') :: rest => some rest
          | _ => none
      match s1 with
      | none => none
      | some s2 =>
        let (n, c, ok) := dtoi s2
        if !ok ∨ 0xFF < n then none
        else if 1 < c ∧ s2.head? = some ('0') then none
        else
          match parseIPv4Fields (s2.drop c) r false with
          | none => none
          | some bytes => some (n :: bytes)

/-- Go net.parseIPv4. -/
def parseIPv4 (s : List Char) : Option IP :=
  (parseIPv4Fields s 4 true).map (fun p => v4InV6Prefix ++ p)

/-- Loop body of Go net.parseIPv6, carried functionally: consumes hex groups and
colons, recording the byte count, the accumulated bytes and the ellipsis
position; returns the leftover string and the loop state. The fuel argument
dominates the loop count (every iteration adds at least two bytes of sixteen). -/
def parseIPv6Loop : Nat → List Char → Nat → List Nat → Option Nat →
    Option (List Char × Nat × List Nat × Option Nat)
  | 0, _, _, _, _ => none
  | fuel + 1, s, i, acc, ell =>
    if 16 ≤ i then some (s, i, acc, ell)
    else
      let (n, c, ok) := xtoi s
      if !ok ∨ 0xFFFF < n then none
      else if c < s.length ∧ s[c]? = some ('.') then
        (if ell = none ∧ i ≠ 12 then none
         else if 16 < i + 4 then none
         else
           match parseIPv4 s with
           | none => none
           | some ip4 => some ([], i + 4, acc ++ ip4.drop 12, ell))
      else
        let acc2 := acc ++ [n / 256, n % 256]
        let i2 := i + 2
        let s2 := s.drop c
        if s2.isEmpty then some ([], i2, acc2, ell)
        else if s2.head? ≠ some (':') ∨ s2.length = 1 then none
        else
          let s3 := s2.drop 1
          if s3.head? = some (':') then
            (if ell.isSome then none
             else
               let s4 := s3.drop 1
               if s4.isEmpty then some ([], i2, acc2, some i2)
               else parseIPv6Loop fuel s4 i2 acc2 (some i2))
          else parseIPv6Loop fuel s3 i2 acc2 ell

/-- Go net.parseIPv6: leading ellipsis handling, the group loop, and the final
ellipsis expansion into the missing zero bytes. -/
def parseIPv6 (s0 : List Char) : Option IP :=
  if s0.take 2 = [(':'), (':')] ∧ (s0.drop 2).isEmpty then some (List.replicate 16 0)
  else
    let start : List Char × Option Nat :=
      if s0.take 2 = [(':'), (':')] then (s0.drop 2, some 0) else (s0, none)
    match parseIPv6Loop 20 start.1 0 [] start.2 with
    | none => none
    | some (srem, i, acc, ell) =>
      if !srem.isEmpty then none
      else if i < 16 then
        match ell with
        | none => none
        | some e => some (acc.take e ++ List.replicate (16 - i) 0 ++ acc.drop e)
      else if ell.isSome then none
      else some acc

/-- Go net.splitHostZone: the zone starts after the last percent sign, if any. -/
def splitHostZone (s : List Char) : List Char × List Char :=
  match lastIdxOf ('%') s with
  | some i => if 0 < i then (s.take i, s.drop (i + 1)) else (s, [])
  | none => (s, [])

/-- Which parser Go net.ParseIP dispatches to: scanning the characters in order,
a dot selects IPv4, a colon selects IPv6, neither yields nil. -/
def parseIPClass : List Char → Option Bool
  | [] => none
  | c :: rest =>
    if c = ('.') then some false
    else if c = (':') then some true
    else parseIPClass rest

/-- Go net.ParseIP. -/
def parseIP (s : List Char) : Option IP :=
  match parseIPClass s with
  | some false => parseIPv4 s
  | some true => parseIPv6 (splitHostZone s).1
  | none => none

/-- Decimal digits folded into a value, rejecting any non-digit. -/
def decDigitsAux : List Char → Nat → Option Nat
  | [], acc => some acc
  | c :: rest, acc =>
    if ('0') ≤ c ∧ c ≤ ('9') then decDigitsAux rest (acc * 10 + (c.toNat - ('0').toNat))
    else none

/-- Go strconv.Atoi on the inputs this program feeds it (optional sign, decimal
digits); the 64-bit overflow error is elided since no claim exercises it. -/
def atoi (s : String) : Except GoError Int :=
  match s.toList with
  | [] => Except.error ("invalid syntax")
  | ('+') :: rest =>
    if rest.isEmpty then Except.error ("invalid syntax")
    else
      match decDigitsAux rest 0 with
      | some n => Except.ok (Int.ofNat n)
      | none => Except.error ("invalid syntax")
  | ('-') :: rest =>
    if rest.isEmpty then Except.error ("invalid syntax")
    else
      match decDigitsAux rest 0 with
      | some n => Except.ok (-(Int.ofNat n))
      | none => Except.error ("invalid syntax")
  | l =>
    match decDigitsAux l 0 with
    | some n => Except.ok (Int.ofNat n)
    | none => Except.error ("invalid syntax")

/-- Modelled from the spec: the Record type of this repository is not among the
provided sources (only its use in src/main.go is); per spec section 3 a record
carries at least an ISO code and a presence indicator, and src/main.go reads
record.Country.ISOCode and record.Country.GeonameId. -/
structure Country where
  isoCode : String
  geonameId : Nat
deriving DecidableEq

structure Record where
  country : Country
deriving DecidableEq

/-- The zero value a Go Record has when a lookup matches no entry. -/
def Record.zero : Record := { country := { isoCode := "", geonameId := 0 } }

/-- A maxminddb.Reader handle at the boundary the spec fixes for the
database-reader collaborator: an identity (pointer), version metadata, the
error its Close returns, and its lookup behaviour (returned error and the
record it writes, the zero record when nothing matches). -/
structure Reader where
  hid : Nat
  buildEpoch : Nat
  closeErr : Option GoError
  lookupFn : IP → Option GoError × Record

/-- What the filesystem holds at a path when the state machine stats/opens it:
absent (os.Stat reports ErrNotExist), present but failing to open, or opening
to a fresh reader. -/
inductive FileStatus where
  | absent
  | openErr (e : GoError)
  | opensTo (r : Reader)

/-- The filesystem oracle reloadDatabase consults. -/
abbrev Fs := String → FileStatus

/-- A Go channel as the cancellation signal: only its closed flag is observable. -/
structure Chan where
  closed : Bool
deriving DecidableEq

/-- Go close(ch): closing an already-closed channel panics. -/
def chanClose (c : Chan) : Except String Chan :=
  if c.closed then Except.error ("close of closed channel")
  else Except.ok { closed := true }

/-- The geoipupdate.Config built by state.Provision (src/state.go lines 42-53).
The Go filepath.Join path cleaning is elided in lockFile: the directory part
produced by filepath.Split already ends in a separator or is empty. -/
structure GeoConfig where
  accountID : Int
  databaseDirectory : String
  licenseKey : String
  lockFile : String
  url : String
  editionIDs : List String
  preserveFileTimes : Bool
  verbose : Bool
  retryForNanos : Nat
deriving DecidableEq

/-- The state struct of src/state.go (the logger and the mutex carry no
observable data in this sequential embedding; all state entry points run the
whole critical section atomically, as the mutex serialises them in Go). -/
structure GoState where
  dbInst : Option Reader
  done : Option Chan
  dbPath : String
  config : Option GeoConfig

/-- The zero value of the state struct, as built by the pool factory in
src/main.go lines 89-91. -/
def zeroState : GoState :=
  { dbInst := none, done := none, dbPath := "", config := none }

/-- Observable events on the handle slot, in program order. -/
inductive DbEvent where
  | installed (hid : Nat)
  | closed (hid : Nat)
deriving DecidableEq

structure ReloadOut where
  st : GoState
  err : Option GoError
  events : List DbEvent

/-- state.reloadDatabase (src/state.go lines 108-138): under the mutex, a
missing file is not an error and changes nothing; an open failure is returned
with the state untouched; a successful open installs the new reader and then
closes the superseded one, returning that Close error if any. -/
def GoState.reloadDatabase (st : GoState) (fs : Fs) : ReloadOut :=
  match fs st.dbPath with
  | FileStatus.absent => { st := st, err := none, events := [] }
  | FileStatus.openErr e => { st := st, err := some e, events := [] }
  | FileStatus.opensTo newInstance =>
    let oldInstance := st.dbInst
    let st2 := { st with dbInst := some newInstance }
    match oldInstance with
    | some old =>
      { st := st2, err := old.closeErr
        events := [DbEvent.installed newInstance.hid, DbEvent.closed old.hid] }
    | none =>
      { st := st2, err := none, events := [DbEvent.installed newInstance.hid] }

/-- The outcome of one remote download-and-persist cycle, as an oracle: the
writer-creation error if any, the fetch error if any (both only logged by the
code), and the filesystem contents after the attempt. -/
structure DownloadEnv where
  writerErr : Option GoError
  getErr : Option GoError
  fsAfter : Fs

structure DownloadOut where
  st : GoState
  err : Option GoError
  events : List DbEvent
  logs : List String

/-- state.downloadDatabase (src/state.go lines 140-160): writer-creation and
fetch errors are logged and do not abort; the reload that follows is
unconditional and its result is what the call returns. -/
def GoState.downloadDatabase (st : GoState) (denv : DownloadEnv) : DownloadOut :=
  let logs :=
    (match denv.writerErr with
     | some e => [("creating maxmind db writer: ") ++ e]
     | none => []) ++
    (match denv.getErr with
     | some e => [("getting database: ") ++ e]
     | none => [])
  let ro := st.reloadDatabase denv.fsAfter
  { st := ro.st, err := ro.err, events := ro.events, logs := logs }

/-- The GeoIP handler configuration of src/main.go (durations in nanoseconds,
as caddy.Duration is int64 nanoseconds). -/
structure GeoIP where
  accountID : Int
  apiKey : String
  dbPath : String
  downloadFrequency : Int
  reloadFrequency : Int
  trustHeader : String
  overrideCountryCode : String
deriving DecidableEq

def mmdbExt : List Char := (".mmdb").toList

/-- The geoipupdate.Config state.Provision builds: edition from the file name
with the .mmdb extension stripped once, lock file alongside the database. -/
def buildConfig (m : GeoIP) : GeoConfig :=
  let parts := filepathSplit m.dbPath.toList
  let edition := replaceFirst parts.2 mmdbExt
  { accountID := m.accountID
    databaseDirectory := String.mk parts.1
    licenseKey := m.apiKey
    lockFile := String.mk parts.1 ++ ".geoipupdate.lock"
    url := "https://updates.maxmind.com"
    editionIDs := [String.mk edition]
    preserveFileTimes := true
    verbose := true
    retryForNanos := 5 * 60 * 1000000000 }

structure ProvisionOut where
  st : GoState
  err : Option GoError
  events : List DbEvent

/-- state.Provision (src/state.go lines 29-106): allocate the done channel,
record the path; in download mode build the config and return the result of a
synchronous download-and-reload; otherwise (with or without a reload ticker,
whose later ticks run reloadDatabase concurrently and are not part of this
call) perform one reload from disk, wrapping its error as a database-open
failure. -/
def GoState.provision (st : GoState) (m : GeoIP) (fs : Fs) (denv : DownloadEnv) : ProvisionOut :=
  let stp := { st with done := some { closed := false }, dbPath := m.dbPath }
  if 0 < m.accountID ∧ m.apiKey ≠ "" ∧ 0 < m.downloadFrequency then
    let stc := { stp with config := some (buildConfig m) }
    let dout := stc.downloadDatabase denv
    { st := dout.st, err := dout.err, events := dout.events }
  else
    let ro := stp.reloadDatabase fs
    { st := ro.st
      err := ro.err.map (fun err => ("cannot open database file ") ++ m.dbPath ++ (": ") ++ err)
      events := ro.events }

/-- state.Destruct (src/state.go lines 173-188): under the mutex, close the
done channel when it is non-nil (a Go close panics on an already-closed
channel, modelled by the Except error), then close the handle if present and
return that error. -/
def GoState.destruct (st : GoState) : Except String (GoState × Option GoError) :=
  match st.done with
  | none =>
    (match st.dbInst with
     | some db => Except.ok (st, db.closeErr)
     | none => Except.ok (st, none))
  | some c =>
    match chanClose c with
    | Except.error e => Except.error e
    | Except.ok c2 =>
      let st2 := { st with done := some c2 }
      (match st2.dbInst with
       | some db => Except.ok (st2, db.closeErr)
       | none => Except.ok (st2, none))

/-- A usage-pool entry: key, reference count, stored value. -/
abbrev Pool (α : Type) := List (String × Nat × α)

/-- Modelled from the spec: caddy.UsagePool.LoadOrNew lives in the caddy host
framework outside this repository; per spec section 4.3, acquiring an existing
key increments its reference count and returns the stored value without
running the constructor, and otherwise the constructor runs exactly once and
the value is stored with reference count 1, atomically with respect to
concurrent acquirers. The Bool mirrors the loaded flag caddy returns. -/
def poolLoadOrNew {α : Type} : Pool α → String → (Unit → α) → α × Bool × Pool α
  | [], key, construct =>
    let v := construct ()
    (v, false, [(key, 1, v)])
  | (k, n, v) :: rest, key, construct =>
    if k = key then (v, true, (k, n + 1, v) :: rest)
    else
      let r := poolLoadOrNew rest key construct
      (r.1, r.2.1, (k, n, v) :: r.2.2)

/-- The fixed pool key used by GeoIP.Provision (src/main.go line 88). -/
def poolKey : String := "geoip.state"

/-- Process environment as a lookup list; Getenv of a missing name is empty. -/
def getenv (env : List (String × String)) (k : String) : String :=
  match env.lookup k with
  | some v => v
  | none => ""

/-- GeoIP.Provision (src/main.go lines 68-106): apply the environment
overrides, then acquire the shared state from the usage pool under the fixed
key. The factory builds a zero state and runs state.Provision, discarding its
returned error (src/main.go line 92) and returning a nil error to the pool, so
LoadOrNew itself never fails and the handler Provision returns nil whenever
the environment parses. -/
def GeoIP.provisionHandler (m : GeoIP) (env : List (String × String)) (fs : Fs)
    (denv : DownloadEnv) (pool : Pool GoState) :
    Except GoError (GeoIP × GoState × Pool GoState) :=
  let step1 : Except GoError GeoIP :=
    if getenv env ("GEOIP_ACCOUNT_ID") ≠ "" then
      match atoi (getenv env ("GEOIP_ACCOUNT_ID")) with
      | Except.error e => Except.error (("reading account id: ") ++ e)
      | Except.ok i => Except.ok { m with accountID := i }
    else Except.ok m
  match step1 with
  | Except.error e => Except.error e
  | Except.ok m1 =>
    let m2 :=
      if getenv env ("GEOIP_API_KEY") ≠ "" then
        { m1 with apiKey := getenv env ("GEOIP_API_KEY") }
      else m1
    let m3 :=
      if getenv env ("GEOIP_OVERRIDE_COUNTRY_CODE") ≠ "" then
        { m2 with overrideCountryCode := getenv env ("GEOIP_OVERRIDE_COUNTRY_CODE") }
      else m2
    let r := poolLoadOrNew pool poolKey (fun _ => (zeroState.provision m3 fs denv).st)
    Except.ok (m3, r.1, r.2.2)

/-- The per-request inputs ServeHTTP reads: the transport peer address and the
request headers (http.Header.Get of a missing header is empty). -/
structure Request where
  remoteAddr : String
  headers : List (String × String)

def headerGet (hs : List (String × String)) (k : String) : String :=
  match hs.lookup k with
  | some v => v
  | none => ""

/-- Whether the handler called the next middleware or returned the lookup error. -/
inductive HttpResult where
  | next
  | failed (e : GoError)
deriving DecidableEq

/-- What one ServeHTTP call did: its outcome, the replacer values it set (most
recent first, so a later Set shadows an earlier one), and the request
RemoteAddr after the trusted-header rewrite. -/
structure ServeOut where
  result : HttpResult
  repl : List (String × String)
  finalRemoteAddr : String

/-- The replacer value observed downstream for a key this handler set. -/
def replValue (out : ServeOut) (k : String) : Option String :=
  out.repl.lookup k

def countryCodeKey : String := "geoip.country_code"

def sentinelCode : String := "--"

/-- The address ServeHTTP works on (src/main.go lines 110-112): the trusted
header value replaces RemoteAddr when the header is configured and present. -/
def effectiveRemoteAddr (m : GeoIP) (r : Request) : String :=
  if m.trustHeader ≠ "" ∧ headerGet r.headers m.trustHeader ≠ "" then
    headerGet r.headers m.trustHeader
  else r.remoteAddr

/-- The host ServeHTTP parses (src/main.go line 116): the host component of
net.SplitHostPort, which is empty whenever the split errors (the error is only
logged). -/
def requestHost (m : GeoIP) (r : Request) : List Char :=
  (splitHostPort (effectiveRemoteAddr m r).toList).1

/-- GeoIP.ServeHTTP (src/main.go lines 108-164): an unparseable address skips
the lookup and sets nothing; with no database loaded the sentinel is set and
the override, when configured, overwrites it; a loaded database is queried,
a lookup error fails the request, and the override overwrites the record code
only when the record matched nothing (zero GeonameId). -/
def GeoIP.serveHTTP (m : GeoIP) (st : GoState) (r : Request) : ServeOut :=
  match parseIP (requestHost m r) with
  | none =>
    { result := HttpResult.next, repl := [], finalRemoteAddr := effectiveRemoteAddr m r }
  | some addr =>
    match st.dbInst with
    | none =>
      let repl0 := [(countryCodeKey, sentinelCode)]
      let repl1 :=
        if m.overrideCountryCode ≠ "" then
          (countryCodeKey, m.overrideCountryCode) :: repl0
        else repl0
      { result := HttpResult.next, repl := repl1, finalRemoteAddr := effectiveRemoteAddr m r }
    | some db =>
      match db.lookupFn addr with
      | (some e, _) =>
        { result := HttpResult.failed e, repl := [], finalRemoteAddr := effectiveRemoteAddr m r }
      | (none, record) =>
        let repl0 := [(countryCodeKey, record.country.isoCode)]
        let repl1 :=
          if m.overrideCountryCode ≠ "" ∧ record.country.geonameId = 0 then
            (countryCodeKey, m.overrideCountryCode) :: repl0
          else repl0
        { result := HttpResult.next, repl := repl1, finalRemoteAddr := effectiveRemoteAddr m r }

/- Concrete fixtures used by the witnesses and counterexamples. -/

/-- A download environment in which nothing was fetched and the disk is empty. -/
def denvNone : DownloadEnv :=
  { writerErr := none, getErr := none, fsAfter := fun _ => FileStatus.absent }

def fsAbsent : Fs := fun _ => FileStatus.absent

def fsCorrupt : Fs := fun _ => FileStatus.openErr ("invalid MaxMind DB file")

def readerOld : Reader :=
  { hid := 1, buildEpoch := 100, closeErr := none, lookupFn := fun _ => (none, Record.zero) }

def readerBadClose : Reader :=
  { hid := 2, buildEpoch := 50, closeErr := some ("close failed")
    lookupFn := fun _ => (none, Record.zero) }

def readerNew : Reader :=
  { hid := 3, buildEpoch := 200, closeErr := none, lookupFn := fun _ => (none, Record.zero) }

def fsGood : Fs := fun _ => FileStatus.opensTo readerNew

/-- A state with a previously-loaded handle. -/
def stLoaded : GoState :=
  { dbInst := some readerOld, done := some { closed := false }
    dbPath := "GeoLite2-Country.mmdb", config := none }

/-- A state whose loaded handle errors when closed. -/
def stBadClose : GoState :=
  { dbInst := some readerBadClose, done := some { closed := false }
    dbPath := "GeoLite2-Country.mmdb", config := none }

/-- A download environment whose fetch failed while a good file sits on disk. -/
def denvFetchFail : DownloadEnv :=
  { writerErr := none, getErr := some ("network timeout"), fsAfter := fsGood }

def mPlain : GeoIP :=
  { accountID := 0, apiKey := "", dbPath := "GeoLite2-Country.mmdb"
    downloadFrequency := 0, reloadFrequency := 0, trustHeader := ""
    overrideCountryCode := "" }

/- Theorems. -/

/-- Claim C5: if reloadDatabase fails to open the database file (the file
exists but errors on open), it returns that error and the whole state,
including the previously-loaded handle, is unchanged: no partial state, and a
refresh error while loaded leaves the prior handle intact. -/
theorem c5_reload_error_no_partial_state (st : GoState) (fs : Fs) (e : GoError)
    (hfs : fs st.dbPath = FileStatus.openErr e) :
    st.reloadDatabase fs = { st := st, err := some e, events := [] } := by
  unfold GoState.reloadDatabase
  rw [hfs]

/-- Claim C5 witness: a loaded state and a corrupt on-disk file. -/
theorem c5_reload_error_witness :
    stLoaded.reloadDatabase fsCorrupt =
      { st := stLoaded, err := some ("invalid MaxMind DB file"), events := [] } :=
  c5_reload_error_no_partial_state stLoaded fsCorrupt ("invalid MaxMind DB file") rfl

/-- Claim C6: when a reload successfully opens a new handle while an old one is
loaded, the new handle is installed and the superseded one is closed exactly
once, and the close event comes strictly after the install event. -/
theorem c6_swap_then_close (st : GoState) (fs : Fs) (rNew rOld : Reader)
    (hfs : fs st.dbPath = FileStatus.opensTo rNew) (hold : st.dbInst = some rOld) :
    (st.reloadDatabase fs).st.dbInst = some rNew ∧
    (st.reloadDatabase fs).events =
      [DbEvent.installed rNew.hid, DbEvent.closed rOld.hid] ∧
    ((st.reloadDatabase fs).events).count (DbEvent.closed rOld.hid) = 1 ∧
    ((st.reloadDatabase fs).events)[0]? = some (DbEvent.installed rNew.hid) ∧
    ((st.reloadDatabase fs).events)[1]? = some (DbEvent.closed rOld.hid) := by
  have h1 : st.reloadDatabase fs =
      { st := { st with dbInst := some rNew }, err := rOld.closeErr
        events := [DbEvent.installed rNew.hid, DbEvent.closed rOld.hid] } := by
    unfold GoState.reloadDatabase
    rw [hfs, hold]
  rw [h1]
  refine ⟨rfl, rfl, ?_, rfl, rfl⟩
  simp [List.count_cons]

/-- Claim C6 witness: the loaded fixture state and a readable new file. -/
theorem c6_swap_then_close_witness :
    (stLoaded.reloadDatabase fsGood).st.dbInst = some readerNew ∧
    (stLoaded.reloadDatabase fsGood).events =
      [DbEvent.installed readerNew.hid, DbEvent.closed readerOld.hid] ∧
    ((stLoaded.reloadDatabase fsGood).events).count (DbEvent.closed readerOld.hid) = 1 ∧
    ((stLoaded.reloadDatabase fsGood).events)[0]? = some (DbEvent.installed readerNew.hid) ∧
    ((stLoaded.reloadDatabase fsGood).events)[1]? = some (DbEvent.closed readerOld.hid) :=
  c6_swap_then_close stLoaded fsGood readerNew readerOld rfl rfl

/-- Claim C7: downloadDatabase reloads from disk regardless of a fetch error
(which is only logged) and returns exactly the reload step result, so a fetch
failure with a good on-disk file still yields a loaded handle. -/
theorem c7_download_failure_still_reloads (st : GoState) (denv : DownloadEnv)
    (rNew : Reader) (e : GoError)
    (hget : denv.getErr = some e)
    (hfs : denv.fsAfter st.dbPath = FileStatus.opensTo rNew) :
    (st.downloadDatabase denv).err = (st.reloadDatabase denv.fsAfter).err ∧
    (st.downloadDatabase denv).st = (st.reloadDatabase denv.fsAfter).st ∧
    (st.downloadDatabase denv).st.dbInst = some rNew ∧
    (("getting database: ") ++ e) ∈ (st.downloadDatabase denv).logs := by
  refine ⟨rfl, rfl, ?_, ?_⟩
  · show (st.reloadDatabase denv.fsAfter).st.dbInst = some rNew
    unfold GoState.reloadDatabase
    rw [hfs]
    cases st.dbInst <;> rfl
  · simp [GoState.downloadDatabase, hget]

/-- Claim C7 witness: a failed fetch over a previously-good on-disk file. -/
theorem c7_download_failure_witness :
    (stLoaded.downloadDatabase denvFetchFail).err =
      (stLoaded.reloadDatabase denvFetchFail.fsAfter).err ∧
    (stLoaded.downloadDatabase denvFetchFail).st =
      (stLoaded.reloadDatabase denvFetchFail.fsAfter).st ∧
    (stLoaded.downloadDatabase denvFetchFail).st.dbInst = some readerNew ∧
    (("getting database: ") ++ "network timeout") ∈ (stLoaded.downloadDatabase denvFetchFail).logs :=
  c7_download_failure_still_reloads stLoaded denvFetchFail readerNew ("network timeout") rfl rfl

/-- Claim C10: a reload that successfully opens and installs a new handle can
still return a non-nil error, namely the close error of the superseded handle;
the new handle stays installed, and state.Provision reports that close error
to its caller wrapped as a database-open failure even though the swap
succeeded. -/
theorem c10_close_error_reported_as_open_failure (st : GoState) (m : GeoIP) (fs : Fs)
    (denv : DownloadEnv) (rNew rOld : Reader) (e : GoError)
    (hmode : ¬(0 < m.accountID ∧ m.apiKey ≠ "" ∧ 0 < m.downloadFrequency))
    (hpath : st.dbPath = m.dbPath)
    (hfs : fs m.dbPath = FileStatus.opensTo rNew)
    (hold : st.dbInst = some rOld)
    (hclose : rOld.closeErr = some e) :
    (st.reloadDatabase fs).err = some e ∧
    (st.reloadDatabase fs).st.dbInst = some rNew ∧
    (st.provision m fs denv).err =
      some (("cannot open database file ") ++ m.dbPath ++ (": ") ++ e) ∧
    (st.provision m fs denv).st.dbInst = some rNew := by
  have hfs2 : fs st.dbPath = FileStatus.opensTo rNew := by rw [hpath]; exact hfs
  refine ⟨?_, ?_, ?_, ?_⟩
  · simp [GoState.reloadDatabase, hfs2, hold, hclose]
  · simp [GoState.reloadDatabase, hfs2, hold]
  · simp [GoState.provision, GoState.reloadDatabase, hmode, hfs, hold, hclose]
  · simp [GoState.provision, GoState.reloadDatabase, hmode, hfs, hold]

/-- Claim C10 witness: a loaded handle whose Close errors, superseded by a good
file at initial provision. -/
theorem c10_close_error_witness :
    (stBadClose.reloadDatabase fsGood).err = some ("close failed") ∧
    (stBadClose.reloadDatabase fsGood).st.dbInst = some readerNew ∧
    (stBadClose.provision mPlain fsGood denvNone).err =
      some ("cannot open database file GeoLite2-Country.mmdb: close failed") ∧
    (stBadClose.provision mPlain fsGood denvNone).st.dbInst = some readerNew :=
  c10_close_error_reported_as_open_failure stBadClose mPlain fsGood denvNone
    readerNew readerBadClose ("close failed") (by decide) rfl rfl rfl rfl

/-- A shared state mid-lifecycle: cancellation channel allocated, nothing loaded. -/
def stC2 : GoState :=
  { dbInst := none, done := some { closed := false }
    dbPath := "GeoLite2-Country.mmdb", config := none }

/-- Claim C2 counterexample: calling Destruct a second time on the same state
is not a guarded no-op: the first call closes the done channel, and the second
call reaches close(state.done) on the already-closed channel, which panics in
Go; the nil-guard in src/state.go line 179 does not protect it. -/
theorem c2_counterexample :
    GoState.destruct stC2 =
      Except.ok ({ stC2 with done := some { closed := true } }, none) ∧
    GoState.destruct { stC2 with done := some { closed := true } } =
      Except.error ("close of closed channel") :=
  ⟨rfl, rfl⟩

/-- Claim C2 as amended: the first Destruct on a state with an open done
channel succeeds and closes the channel exactly once; a second Destruct on the
resulting state panics with a close-of-closed-channel error rather than being
a no-op, because the guard only checks the channel against nil. -/
theorem c2_second_destruct_panics (st : GoState) (c : Chan)
    (hdone : st.done = some c) (hopen : c.closed = false) :
    ∃ stout ret, GoState.destruct st = Except.ok (stout, ret) ∧
      stout.done = some { closed := true } ∧
      GoState.destruct stout = Except.error ("close of closed channel") := by
  cases hdb : st.dbInst with
  | none =>
    refine ⟨{ st with done := some { closed := true } }, none, ?_, rfl, ?_⟩
    · simp [GoState.destruct, hdone, chanClose, hopen, hdb]
    · simp [GoState.destruct, chanClose]
  | some db =>
    refine ⟨{ st with done := some { closed := true } }, db.closeErr, ?_, rfl, ?_⟩
    · simp [GoState.destruct, hdone, chanClose, hopen, hdb]
    · simp [GoState.destruct, chanClose]

/-- Claim C2 witness: the mid-lifecycle fixture state satisfies the amended
statement. -/
theorem c2_second_destruct_witness :
    ∃ stout ret, GoState.destruct stC2 = Except.ok (stout, ret) ∧
      stout.done = some { closed := true } ∧
      GoState.destruct stout = Except.error ("close of closed channel") :=
  c2_second_destruct_panics stC2 { closed := false } rfl rfl

/-- The state the factory builds when the initial reload fails to open the
corrupt database file: path recorded, channel allocated, handle unset. -/
def st3 : GoState :=
  { dbInst := none, done := some { closed := false }
    dbPath := "GeoLite2-Country.mmdb", config := none }

/-- Claim C3: state.Provision does return the wrapped open error when the file
exists but cannot be opened, but the pool factory in GeoIP.Provision
(src/main.go line 92) discards that error and returns a nil error to the pool,
so the handler Provision reports success and host startup is not aborted. -/
theorem c3_provision_error_swallowed :
    (zeroState.provision mPlain fsCorrupt denvNone).err =
      some ("cannot open database file GeoLite2-Country.mmdb: invalid MaxMind DB file") ∧
    GeoIP.provisionHandler mPlain [] fsCorrupt denvNone [] =
      Except.ok (mPlain, st3, [(poolKey, 1, st3)]) :=
  ⟨rfl, rfl⟩

def mPathA : GeoIP :=
  { accountID := 0, apiKey := "", dbPath := "a.mmdb"
    downloadFrequency := 0, reloadFrequency := 0, trustHeader := ""
    overrideCountryCode := "" }

def mPathB : GeoIP := { mPathA with dbPath := "b.mmdb" }

/-- The shared state the first provision stores under the fixed pool key. -/
def stSharedA : GoState :=
  { dbInst := none, done := some { closed := false }, dbPath := "a.mmdb", config := none }

/-- Claim C1 counterexample: two handler instances configured with distinct
database paths do NOT obtain distinct SharedStates: GeoIP.Provision keys the
usage pool with the constant string of poolKey (src/main.go line 88), not with
the database path, so the second instance receives the state built for the
first path (its dbPath stays the first path) and the pool holds a single entry
with reference count 2. -/
theorem c1_counterexample :
    mPathA.dbPath ≠ mPathB.dbPath ∧
    GeoIP.provisionHandler mPathA [] fsAbsent denvNone [] =
      Except.ok (mPathA, stSharedA, [(poolKey, 1, stSharedA)]) ∧
    GeoIP.provisionHandler mPathB [] fsAbsent denvNone [(poolKey, 1, stSharedA)] =
      Except.ok (mPathB, stSharedA, [(poolKey, 2, stSharedA)]) ∧
    stSharedA.dbPath = mPathA.dbPath :=
  ⟨by decide, rfl, rfl, rfl⟩

/-- Claim C1 as amended: exactly one SharedState exists per distinct pool key,
and this handler always uses the single fixed key, so repeated provisions run
the state-building factory exactly once (the pool keeps one entry whose
reference count grows) and every handler instance shares that one state
regardless of its configured database path. -/
theorem c1_single_state_per_pool_key (m1 m2 : GeoIP) (fs : Fs) (denv : DownloadEnv) :
    ∃ st1 : GoState,
      GeoIP.provisionHandler m1 [] fs denv [] =
        Except.ok (m1, st1, [(poolKey, 1, st1)]) ∧
      GeoIP.provisionHandler m2 [] fs denv [(poolKey, 1, st1)] =
        Except.ok (m2, st1, [(poolKey, 2, st1)]) :=
  ⟨(zeroState.provision m1 fs denv).st, rfl, rfl⟩

/-- Claim C4: with the configured database path absent, state.Provision
returns no error and leaves the handle unset, and every request that reaches
the lookup stage (its resolved address parses) is served the sentinel code,
or the configured override code when one is set. -/
theorem c4_absent_db_fallback (m : GeoIP) (st : GoState) (fs : Fs) (denv : DownloadEnv)
    (r : Request) (a : IP)
    (hmode : ¬(0 < m.accountID ∧ m.apiKey ≠ "" ∧ 0 < m.downloadFrequency))
    (hfs : fs m.dbPath = FileStatus.absent)
    (hst : st.dbInst = none)
    (hparse : parseIP (requestHost m r) = some a) :
    (st.provision m fs denv).err = none ∧
    (st.provision m fs denv).st.dbInst = none ∧
    replValue (GeoIP.serveHTTP m (st.provision m fs denv).st r) countryCodeKey =
      some (if m.overrideCountryCode = "" then sentinelCode else m.overrideCountryCode) := by
  have hprov : st.provision m fs denv =
      { st := { st with done := some { closed := false }, dbPath := m.dbPath }
        err := none, events := [] } := by
    unfold GoState.provision
    rw [if_neg hmode]
    unfold GoState.reloadDatabase
    rw [show ({ st with done := some { closed := false }, dbPath := m.dbPath } :
        GoState).dbPath = m.dbPath from rfl]
    rw [hfs]
    rfl
  rw [hprov]
  refine ⟨rfl, hst, ?_⟩
  by_cases ho : m.overrideCountryCode = ""
  · simp [GeoIP.serveHTTP, hparse, hst, ho, replValue, List.lookup]
  · simp [GeoIP.serveHTTP, hparse, hst, ho, replValue, List.lookup]

def rNoHeader : Request := { remoteAddr := "202.36.75.151:3000", headers := [] }

/-- The Go net byte representation of 202.36.75.151. -/
def ipNZ : IP := v4InV6Prefix ++ [202, 36, 75, 151]

/-- Claim C4 witness: absent database file, no override configured, a request
with a parseable IPv4 peer address is served the sentinel. -/
theorem c4_absent_db_witness :
    (zeroState.provision mPlain fsAbsent denvNone).err = none ∧
    (zeroState.provision mPlain fsAbsent denvNone).st.dbInst = none ∧
    replValue (GeoIP.serveHTTP mPlain (zeroState.provision mPlain fsAbsent denvNone).st rNoHeader)
        countryCodeKey =
      some (if mPlain.overrideCountryCode = "" then sentinelCode
            else mPlain.overrideCountryCode) :=
  c4_absent_db_fallback mPlain zeroState fsAbsent denvNone rNoHeader ipNZ
    (by decide) rfl rfl rfl

/-- A reader that answers the NZ test record for the NZ test address and the
zero record otherwise. -/
def recNZ : Record := { country := { isoCode := "NZ", geonameId := 2186224 } }

def readerNZ : Reader :=
  { hid := 7, buildEpoch := 300, closeErr := none
    lookupFn := fun a => if a = ipNZ then (none, recNZ) else (none, Record.zero) }

def stWithNZ : GoState :=
  { dbInst := some readerNZ, done := some { closed := false }
    dbPath := "GeoLite2-Country.mmdb", config := none }

/-- Claim C9: with a database loaded, a lookup that returns no error and the
zero record (no match), and no override configured, the published country code
is the record ISO code, the empty string, and not the sentinel. -/
theorem c9_zero_record_publishes_iso_code (m : GeoIP) (st : GoState) (r : Request)
    (a : IP) (db : Reader)
    (hparse : parseIP (requestHost m r) = some a)
    (hdb : st.dbInst = some db)
    (hlookup : db.lookupFn a = (none, Record.zero))
    (hov : m.overrideCountryCode = "") :
    replValue (GeoIP.serveHTTP m st r) countryCodeKey = some (Record.zero.country.isoCode) ∧
    replValue (GeoIP.serveHTTP m st r) countryCodeKey ≠ some sentinelCode ∧
    (GeoIP.serveHTTP m st r).result = HttpResult.next := by
  have hout : GeoIP.serveHTTP m st r =
      { result := HttpResult.next
        repl := [(countryCodeKey, Record.zero.country.isoCode)]
        finalRemoteAddr := effectiveRemoteAddr m r } := by
    simp [GeoIP.serveHTTP, hparse, hdb, hlookup, hov]
  rw [hout]
  refine ⟨?_, ?_, rfl⟩
  · simp [replValue, List.lookup]
  · simp [replValue, List.lookup, Record.zero, sentinelCode]

/-- A reader that answers no error and the zero record for every address. -/
def readerNoMatch : Reader :=
  { hid := 9, buildEpoch := 400, closeErr := none
    lookupFn := fun _ => (none, Record.zero) }

def stNoMatch : GoState :=
  { dbInst := some readerNoMatch, done := some { closed := false }
    dbPath := "GeoLite2-Country.mmdb", config := none }

/-- Claim C9 witness: a loaded database with no matching entry for the peer
address and no override. -/
theorem c9_zero_record_witness :
    replValue (GeoIP.serveHTTP mPlain stNoMatch rNoHeader) countryCodeKey =
      some (Record.zero.country.isoCode) ∧
    replValue (GeoIP.serveHTTP mPlain stNoMatch rNoHeader) countryCodeKey ≠
      some sentinelCode ∧
    (GeoIP.serveHTTP mPlain stNoMatch rNoHeader).result = HttpResult.next :=
  c9_zero_record_publishes_iso_code mPlain stNoMatch rNoHeader ipNZ readerNoMatch
    rfl rfl rfl rfl

/-- Every branch of splitHostPort either reports no error or returns an empty
host, exactly as the Go function returns empty strings from its addrErr helper. -/
theorem splitHostPort_ok_or_empty (s : List Char) :
    (splitHostPort s).2.2 = none ∨ (splitHostPort s).1 = [] := by
  unfold splitHostPort
  repeat' split
  all_goals simp
  all_goals split <;> simp

def mTrust : GeoIP :=
  { accountID := 0, apiKey := "", dbPath := "GeoLite2-Country.mmdb"
    downloadFrequency := 0, reloadFrequency := 0, trustHeader := "X-Real-IP"
    overrideCountryCode := "" }

/-- A request whose trusted header carries a bare IP address with no port. -/
def rPortless : Request :=
  { remoteAddr := "10.0.0.1:9999", headers := [("X-Real-IP", "202.36.75.151")] }

/-- Claim C8 counterexample: the trusted header is configured and present, its
value has no port so net.SplitHostPort fails, and although the raw value is a
valid address (it parses, and the loaded database has a record for it), the
handler skips the lookup entirely and publishes nothing: Go SplitHostPort
returns an empty host on error, so the parsed address is nil. -/
theorem c8_counterexample :
    GeoIP.serveHTTP mTrust stWithNZ rPortless =
      { result := HttpResult.next, repl := [], finalRemoteAddr := "202.36.75.151" } ∧
    parseIP (("202.36.75.151").toList) = some ipNZ ∧
    readerNZ.lookupFn ipNZ = (none, recNZ) :=
  ⟨rfl, rfl, rfl⟩

/-- Claim C8 as amended: when the trusted header is configured and present but
its value cannot be split into host and port, the split yields an empty host
(the raw value is NOT used), the empty string fails to parse as an address,
and the handler skips the lookup and proceeds to the next handler having
published nothing; only the request RemoteAddr rewrite to the header value
remains observable. -/
theorem c8_portless_header_skips_lookup (m : GeoIP) (st : GoState) (r : Request) (e : GoError)
    (hth : m.trustHeader ≠ "")
    (hpresent : headerGet r.headers m.trustHeader ≠ "")
    (hsplit : (splitHostPort ((headerGet r.headers m.trustHeader).toList)).2.2 = some e) :
    GeoIP.serveHTTP m st r =
      { result := HttpResult.next, repl := []
        finalRemoteAddr := headerGet r.headers m.trustHeader } := by
  have hema : effectiveRemoteAddr m r = headerGet r.headers m.trustHeader := by
    unfold effectiveRemoteAddr
    rw [if_pos ⟨hth, hpresent⟩]
  have hhost : requestHost m r = [] := by
    unfold requestHost
    rw [hema]
    rcases splitHostPort_ok_or_empty ((headerGet r.headers m.trustHeader).toList) with hc | hc
    · rw [hsplit] at hc
      cases hc
    · exact hc
  unfold GeoIP.serveHTTP
  rw [hhost]
  rw [show parseIP ([] : List Char) = none from rfl]
  rw [hema]

/-- Claim C8 witness: the concrete portless-header request satisfies the
amended statement. -/
theorem c8_portless_header_witness :
    GeoIP.serveHTTP mTrust stWithNZ rPortless =
      { result := HttpResult.next, repl := []
        finalRemoteAddr := headerGet rPortless.headers mTrust.trustHeader } :=
  c8_portless_header_skips_lookup mTrust stWithNZ rPortless
    ("missing port in address") (by decide) (by decide) rfl

end CaddyGeoIp
